import Mathlib

/-!
Verification of the tBTC wormhole-gateway outbound ("send tBTC") path:
`validate_send` and `burn_and_prepare_transfer` from
`cross-chain/solana/programs/wormhole-gateway/src/processor/send_tbtc/mod.rs`,
and the error taxonomy from
`cross-chain/solana/programs/wormhole-gateway/src/error.rs`.

Machine integers (`u64`, `u16`, `u32`) are modelled as `Nat`: the only
arithmetic in this code path is checked subtraction, which cannot overflow,
so no modular wrap is needed. A 32-byte identifier `[u8; 32]` is modelled as
a list of bytes; the code only ever compares it against the all-zero array.
-/

namespace TbtcGateway

/-- A 32-byte identifier, as used for recipients, gateways and addresses. -/
abbrev Bytes32 := List Nat

/-- The all-zero 32-byte identifier, Rust's `[0u8; 32]` (the `Default` value of
`[u8; 32]`). -/
def zero32 : Bytes32 := List.replicate 32 0

/-- The error enumeration of `error.rs` (`WormholeGatewayError`), with its
eleven constructors in source order. -/
inductive WormholeGatewayError where
  | MintingLimitExceeded
  | IsNotAuthority
  | ZeroRecipient
  | NotEnoughWrappedTbtc
  | ZeroAmount
  | TruncatedZeroAmount
  | TransferAlreadyRedeemed
  | InvalidEthereumTbtc
  | NoTbtcTransferred
  | RecipientZeroAddress
  | MintedAmountUnderflow
deriving DecidableEq, Repr, Fintype

/-- The numeric tag `error.rs` assigns to each error kind (the explicit
discriminants `= 0x10`, `= 0x20`, ..., `= 0xb0`). -/
def errorCode : WormholeGatewayError → Nat
  | .MintingLimitExceeded => 0x10
  | .IsNotAuthority => 0x20
  | .ZeroRecipient => 0x30
  | .NotEnoughWrappedTbtc => 0x40
  | .ZeroAmount => 0x50
  | .TruncatedZeroAmount => 0x60
  | .TransferAlreadyRedeemed => 0x70
  | .InvalidEthereumTbtc => 0x80
  | .NoTbtcTransferred => 0x90
  | .RecipientZeroAddress => 0xa0
  | .MintedAmountUnderflow => 0xb0

/-- The eleven error kinds of `error.rs`, in source order. -/
def allErrors : List WormholeGatewayError :=
  [.MintingLimitExceeded, .IsNotAuthority, .ZeroRecipient, .NotEnoughWrappedTbtc,
   .ZeroAmount, .TruncatedZeroAmount, .TransferAlreadyRedeemed, .InvalidEthereumTbtc,
   .NoTbtcTransferred, .RecipientZeroAddress, .MintedAmountUnderflow]

/-- An SPL token account, as read and written by the send path. Besides the
`amount` balance the code touches the delegation fields (via `token::approve`);
`mint` and `owner` are carried along as the other account data the gateway
code never inspects. -/
structure TokenAccount where
  mint : Bytes32
  owner : Bytes32
  amount : Nat
  delegate : Option Bytes32
  delegatedAmount : Nat
deriving DecidableEq, Repr

/-- Modelled from the spec: the `Custodian` account of `state.rs` (the file is
outside the provided sources); spec section 3 gives its fields `minted_amount`,
`minting_limit` and the `bump` seed identity. -/
structure Custodian where
  mintedAmount : Nat
  mintingLimit : Nat
  bump : Nat
deriving DecidableEq, Repr

/-- Modelled from the spec: the `WormholeTbtcSent` event of `event.rs` (the
file is outside the provided sources); its fields are exactly those set by the
`emit!` in `burn_and_prepare_transfer`. -/
structure WormholeTbtcSent where
  amount : Nat
  recipient_chain : Nat
  gateway : Bytes32
  recipient : Bytes32
  arbiter_fee : Nat
  nonce : Nat
deriving DecidableEq, Repr

/-- `validate_send` from `send_tbtc/mod.rs`: the three `require` checks in
source order. `require!` / `require_gt!` / `require_gte!` return the given
error as soon as their condition fails, so the checks short-circuit. -/
def validate_send (wrapped_tbtc_token : TokenAccount) (recipient : Bytes32)
    (amount : Nat) : Except WormholeGatewayError Unit :=
  if recipient = zero32 then .error .ZeroRecipient
  else if amount = 0 then .error .ZeroAmount
  else if wrapped_tbtc_token.amount < amount then .error .NotEnoughWrappedTbtc
  else .ok ()

/-- Rust's `u64::checked_sub`: `none` exactly when the subtraction would
underflow. -/
def checked_sub (a b : Nat) : Option Nat :=
  if b ≤ a then some (a - b) else none

/-- Errors surfaced by `burn_and_prepare_transfer`: the gateway's own error
kinds, plus opaque failures of the two token-program CPIs (`token::burn` and
`token::approve`), which carry token-program error codes, not
`WormholeGatewayError` values. -/
inductive SendError where
  | gatewayErr (e : WormholeGatewayError)
  | tokenBurnInsufficientFunds
  | tokenApproveFailed
deriving DecidableEq, Repr

/-- The accounts mutated by the send path, together with the emitted event
log: the custodian ledger, the sender's tBTC token account (burn source), and
the custody wrapped-tBTC token account (delegation target). -/
structure SendState where
  custodian : Custodian
  sender_token : TokenAccount
  wrapped_tbtc_token : TokenAccount
  events : List WormholeTbtcSent
deriving DecidableEq, Repr

/-- The SPL token program's `burn` semantics over the modelled fields: fails
when the source account holds fewer than `amount` tokens, otherwise removes
`amount` from its balance. -/
def token_burn (acct : TokenAccount) (amount : Nat) : Except SendError TokenAccount :=
  if acct.amount < amount then .error .tokenBurnInsufficientFunds
  else .ok { acct with amount := acct.amount - amount }

/-- The SPL token program's `approve` semantics over the modelled fields: sets
the delegate and the delegated amount. `approveOk` stands for the token
program's verdict on account conditions outside the modelled fields (e.g. a
frozen account), under which the CPI fails instead. -/
def token_approve (acct : TokenAccount) (delegate : Bytes32) (amount : Nat)
    (approveOk : Bool) : Except SendError TokenAccount :=
  if approveOk then .ok { acct with delegate := some delegate, delegatedAmount := amount }
  else .error .tokenApproveFailed

/-- `burn_and_prepare_transfer` from `send_tbtc/mod.rs`, as sequential
execution over `SendState`, returning the result together with the state at
exit (at the failure point, when a step fails).

Step 1 mirrors the source exactly: the source computes
`custodian.minted_amount.checked_sub(amount).ok_or(MintedAmountUnderflow)?`
and DISCARDS the difference — `minted_amount` is never written, so on the
success path the custodian ledger is left unchanged. -/
def burn_and_prepare_transfer (st : SendState)
    (token_bridge_transfer_authority : Bytes32) (approveOk : Bool)
    (amount : Nat) (recipient_chain : Nat) (gateway : Option Bytes32)
    (recipient : Bytes32) (arbiter_fee : Option Nat) (nonce : Nat) :
    Except SendError Unit × SendState :=
  match checked_sub st.custodian.mintedAmount amount with
  | none => (.error (.gatewayErr .MintedAmountUnderflow), st)
  | some _ =>
    match token_burn st.sender_token amount with
    | .error e => (.error e, st)
    | .ok sender1 =>
      let st1 : SendState := { st with sender_token := sender1 }
      let ev : WormholeTbtcSent :=
        { amount := amount, recipient_chain := recipient_chain,
          gateway := gateway.getD zero32, recipient := recipient,
          arbiter_fee := arbiter_fee.getD 0, nonce := nonce }
      let st2 : SendState := { st1 with events := st1.events ++ [ev] }
      match token_approve st2.wrapped_tbtc_token token_bridge_transfer_authority
          amount approveOk with
      | .error e => (.error e, st2)
      | .ok wrapped1 => (.ok (), { st2 with wrapped_tbtc_token := wrapped1 })

/-- Modelled from the spec: the host (Solana) executes the whole instruction
as a single atomic unit — spec sections 4.3 and 5 require that a failure at
any step reverts every account mutation, so a failed call has no observable
effect. This is the transaction-level, observable behaviour of
`burn_and_prepare_transfer`. -/
def send_tbtc_observable (st : SendState)
    (token_bridge_transfer_authority : Bytes32) (approveOk : Bool)
    (amount : Nat) (recipient_chain : Nat) (gateway : Option Bytes32)
    (recipient : Bytes32) (arbiter_fee : Option Nat) (nonce : Nat) :
    Except SendError Unit × SendState :=
  match burn_and_prepare_transfer st token_bridge_transfer_authority approveOk
      amount recipient_chain gateway recipient arbiter_fee nonce with
  | (.ok u, st1) => (.ok u, st1)
  | (.error e, _) => (.error e, st)

/-- A token account with all fields zero, the base for concrete test states. -/
def acct0 : TokenAccount :=
  { mint := zero32, owner := zero32, amount := 0, delegate := none, delegatedAmount := 0 }

/-- The happy-path state of spec section 8: `minted_amount = 1000`, sender and
custody balances `500`, no prior events. -/
def st1000 : SendState :=
  { custodian := { mintedAmount := 1000, mintingLimit := 10000, bump := 255 },
    sender_token := { acct0 with amount := 500 },
    wrapped_tbtc_token := { acct0 with amount := 500 },
    events := [] }

/-- The underflow-boundary state of spec section 8: `minted_amount = 100`. -/
def st100 : SendState :=
  { st1000 with custodian := { mintedAmount := 100, mintingLimit := 10000, bump := 255 } }

/-- A nonzero 32-byte recipient. -/
def ones32 : Bytes32 := List.replicate 32 1

/-- C3: `validate_send` evaluates recipient, amount and balance checks in that
fixed order and short-circuits at the first failure: an all-zero recipient
yields `ZeroRecipient` regardless of the other arguments; otherwise a zero
amount yields `ZeroAmount`; otherwise an insufficient custody balance yields
`NotEnoughWrappedTbtc`; otherwise the call succeeds. In particular with
balance 0, all-zero recipient and amount 0 the result is `ZeroRecipient`. -/
theorem C3_validate_send_check_order :
    (∀ acct amt, validate_send acct zero32 amt = .error .ZeroRecipient) ∧
    (∀ acct (r : Bytes32), r ≠ zero32 → validate_send acct r 0 = .error .ZeroAmount) ∧
    (∀ acct (r : Bytes32) amt, r ≠ zero32 → amt ≠ 0 → acct.amount < amt →
      validate_send acct r amt = .error .NotEnoughWrappedTbtc) ∧
    (∀ acct (r : Bytes32) amt, r ≠ zero32 → amt ≠ 0 → amt ≤ acct.amount →
      validate_send acct r amt = .ok ()) ∧
    (∀ acct, acct.amount = 0 → validate_send acct zero32 0 = .error .ZeroRecipient) := by
  refine ⟨?_, ?_, ?_, ?_, ?_⟩
  · intro acct amt
    unfold validate_send
    rw [if_pos rfl]
  · intro acct r h
    unfold validate_send
    rw [if_neg h, if_pos rfl]
  · intro acct r amt h1 h2 h3
    unfold validate_send
    rw [if_neg h1, if_neg h2, if_pos h3]
  · intro acct r amt h1 h2 h3
    unfold validate_send
    rw [if_neg h1, if_neg h2, if_neg (by omega)]
  · intro acct _
    unfold validate_send
    rw [if_pos rfl]

/-- Witness for C3 at concrete inputs, including the spec's
`balance=0, recipient=zero, amount=0` instance. -/
theorem C3_validate_send_check_order_witness :
    validate_send acct0 zero32 0 = .error .ZeroRecipient ∧
    validate_send acct0 ones32 0 = .error .ZeroAmount ∧
    validate_send acct0 ones32 5 = .error .NotEnoughWrappedTbtc ∧
    validate_send { acct0 with amount := 5 } ones32 5 = .ok () :=
  ⟨C3_validate_send_check_order.1 acct0 0,
   C3_validate_send_check_order.2.1 acct0 ones32 (by decide),
   C3_validate_send_check_order.2.2.1 acct0 ones32 5 (by decide) (by decide) (by decide),
   C3_validate_send_check_order.2.2.2.1 { acct0 with amount := 5 } ones32 5
     (by decide) (by decide) (by decide)⟩

/-- C5: with a nonzero recipient and a positive amount, a custody balance
exactly equal to the amount passes `validate_send` — the sufficiency check is
`>=`, not strict `>`. -/
theorem C5_exact_balance_sufficient (acct : TokenAccount) (r : Bytes32) (amt : Nat)
    (h1 : r ≠ zero32) (h2 : 0 < amt) (h3 : acct.amount = amt) :
    validate_send acct r amt = .ok () := by
  unfold validate_send
  rw [if_neg h1, if_neg (by omega), if_neg (by omega)]

/-- Witness for C5: balance 7, amount 7, nonzero recipient. -/
theorem C5_exact_balance_sufficient_witness :
    validate_send { acct0 with amount := 7 } ones32 7 = .ok () :=
  C5_exact_balance_sufficient { acct0 with amount := 7 } ones32 7
    (by decide) (by decide) (by decide)

/-- C10: `validate_send` is a pure function whose result depends only on the
custody account's `amount` field, the recipient bytes and the amount argument:
two custody accounts agreeing on `amount` give equal results whatever their
other fields. -/
theorem C10_validate_send_depends_only_on_balance (a b : TokenAccount)
    (r : Bytes32) (amt : Nat) (h : a.amount = b.amount) :
    validate_send a r amt = validate_send b r amt := by
  unfold validate_send
  rw [h]

/-- Witness for C10: two accounts with the same balance but different mint,
owner and delegation fields validate identically. -/
theorem C10_validate_send_depends_only_on_balance_witness :
    validate_send { mint := zero32, owner := zero32, amount := 3,
                    delegate := none, delegatedAmount := 0 } ones32 2 =
    validate_send { mint := ones32, owner := ones32, amount := 3,
                    delegate := some zero32, delegatedAmount := 99 } ones32 2 :=
  C10_validate_send_depends_only_on_balance
    { mint := zero32, owner := zero32, amount := 3, delegate := none, delegatedAmount := 0 }
    { mint := ones32, owner := ones32, amount := 3, delegate := some zero32, delegatedAmount := 99 }
    ones32 2 rfl

/-- C8: the error taxonomy is a closed enumeration of exactly the eleven
listed kinds, and the numeric tags of `error.rs` are pairwise distinct. -/
theorem C8_error_taxonomy_closed_distinct :
    (∀ e : WormholeGatewayError, e ∈ allErrors) ∧
    allErrors.length = 11 ∧
    allErrors.Nodup ∧
    (allErrors.map errorCode).Nodup := by
  decide

/-- C4: whenever `amount > minted_amount`, `burn_and_prepare_transfer` fails
with `MintedAmountUnderflow` and the whole state — in particular
`minted_amount` — is exactly the pre-call state. -/
theorem C4_underflow_fails_minted_unchanged (st : SendState) (auth : Bytes32)
    (approveOk : Bool) (amt rc : Nat) (gw : Option Bytes32) (r : Bytes32)
    (fee : Option Nat) (n : Nat) (h : st.custodian.mintedAmount < amt) :
    burn_and_prepare_transfer st auth approveOk amt rc gw r fee n =
      (.error (.gatewayErr .MintedAmountUnderflow), st) := by
  have hcs : checked_sub st.custodian.mintedAmount amt = none := by
    unfold checked_sub
    exact if_neg (by omega)
  unfold burn_and_prepare_transfer
  rw [hcs]

/-- Witness for C4: the spec's boundary instance — `minted_amount = 100`,
amount `101` — fails with `MintedAmountUnderflow` and leaves the state (so
`minted_amount = 100`) untouched. -/
theorem C4_underflow_fails_minted_unchanged_witness :
    burn_and_prepare_transfer st100 zero32 true 101 2 none ones32 none 0 =
      (.error (.gatewayErr .MintedAmountUnderflow), st100) ∧
    st100.custodian.mintedAmount = 100 :=
  ⟨C4_underflow_fails_minted_unchanged st100 zero32 true 101 2 none ones32 none 0
     (by decide), rfl⟩

/-- C6: the ledger debit is the first step of `burn_and_prepare_transfer`;
when it fails the call aborts before the burn, the event emission and the
delegation are attempted — sender balance, event log and custody token account
are all exactly their pre-call values. -/
theorem C6_debit_failure_aborts_before_token_movement (st : SendState)
    (auth : Bytes32) (approveOk : Bool) (amt rc : Nat) (gw : Option Bytes32)
    (r : Bytes32) (fee : Option Nat) (n : Nat)
    (h : st.custodian.mintedAmount < amt) :
    (burn_and_prepare_transfer st auth approveOk amt rc gw r fee n).1 =
      .error (.gatewayErr .MintedAmountUnderflow) ∧
    (burn_and_prepare_transfer st auth approveOk amt rc gw r fee n).2.sender_token =
      st.sender_token ∧
    (burn_and_prepare_transfer st auth approveOk amt rc gw r fee n).2.events =
      st.events ∧
    (burn_and_prepare_transfer st auth approveOk amt rc gw r fee n).2.wrapped_tbtc_token =
      st.wrapped_tbtc_token := by
  have hcs : checked_sub st.custodian.mintedAmount amt = none := by
    unfold checked_sub
    exact if_neg (by omega)
  unfold burn_and_prepare_transfer
  rw [hcs]
  exact ⟨rfl, rfl, rfl, rfl⟩

/-- Witness for C6 at the concrete underflow instance. -/
theorem C6_debit_failure_aborts_before_token_movement_witness :
    (burn_and_prepare_transfer st100 zero32 true 101 2 none ones32 none 1).1 =
      .error (.gatewayErr .MintedAmountUnderflow) ∧
    (burn_and_prepare_transfer st100 zero32 true 101 2 none ones32 none 1).2.sender_token =
      st100.sender_token ∧
    (burn_and_prepare_transfer st100 zero32 true 101 2 none ones32 none 1).2.events =
      st100.events ∧
    (burn_and_prepare_transfer st100 zero32 true 101 2 none ones32 none 1).2.wrapped_tbtc_token =
      st100.wrapped_tbtc_token :=
  C6_debit_failure_aborts_before_token_movement st100 zero32 true 101 2 none ones32
    none 1 (by decide)

/-- C7: a successful call with `gateway = none` and `arbiter_fee = none` emits
a `WormholeTbtcSent` event whose `gateway` is the all-zero identifier and
whose `arbiter_fee` is `0` (`unwrap_or_default`); the omission is not an
error. -/
theorem C7_defaults_zero_gateway_and_fee (st : SendState) (auth : Bytes32)
    (amt rc : Nat) (r : Bytes32) (n : Nat)
    (h1 : amt ≤ st.custodian.mintedAmount) (h2 : amt ≤ st.sender_token.amount) :
    (burn_and_prepare_transfer st auth true amt rc none r none n).1 = .ok () ∧
    (burn_and_prepare_transfer st auth true amt rc none r none n).2.events =
      st.events ++ [{ amount := amt, recipient_chain := rc, gateway := zero32,
                      recipient := r, arbiter_fee := 0, nonce := n }] := by
  have hcs : checked_sub st.custodian.mintedAmount amt =
      some (st.custodian.mintedAmount - amt) := by
    unfold checked_sub
    exact if_pos h1
  have hb : token_burn st.sender_token amt =
      .ok { st.sender_token with amount := st.sender_token.amount - amt } := by
    unfold token_burn
    exact if_neg (by omega)
  unfold burn_and_prepare_transfer
  rw [hcs, hb]
  exact ⟨rfl, rfl⟩

/-- Witness for C7: the happy-path state with both options omitted. -/
theorem C7_defaults_zero_gateway_and_fee_witness :
    (burn_and_prepare_transfer st1000 zero32 true 500 2 none ones32 none 0).1 = .ok () ∧
    (burn_and_prepare_transfer st1000 zero32 true 500 2 none ones32 none 0).2.events =
      st1000.events ++ [{ amount := 500, recipient_chain := 2, gateway := zero32,
                          recipient := ones32, arbiter_fee := 0, nonce := 0 }] :=
  C7_defaults_zero_gateway_and_fee st1000 zero32 500 2 ones32 0 (by decide) (by decide)

/-- C9: the event emission is sequenced before the delegation call: when the
debit and the burn succeed but the `token::approve` CPI fails, the call
returns the approve failure, yet the "sent" event has already been appended to
the log, and the custody account's delegation is untouched. -/
theorem C9_emit_sequenced_before_approve (st : SendState) (auth : Bytes32)
    (amt rc : Nat) (gw : Option Bytes32) (r : Bytes32) (fee : Option Nat) (n : Nat)
    (h1 : amt ≤ st.custodian.mintedAmount) (h2 : amt ≤ st.sender_token.amount) :
    (burn_and_prepare_transfer st auth false amt rc gw r fee n).1 =
      .error .tokenApproveFailed ∧
    (burn_and_prepare_transfer st auth false amt rc gw r fee n).2.events =
      st.events ++ [{ amount := amt, recipient_chain := rc, gateway := gw.getD zero32,
                      recipient := r, arbiter_fee := fee.getD 0, nonce := n }] ∧
    (burn_and_prepare_transfer st auth false amt rc gw r fee n).2.wrapped_tbtc_token =
      st.wrapped_tbtc_token := by
  have hcs : checked_sub st.custodian.mintedAmount amt =
      some (st.custodian.mintedAmount - amt) := by
    unfold checked_sub
    exact if_pos h1
  have hb : token_burn st.sender_token amt =
      .ok { st.sender_token with amount := st.sender_token.amount - amt } := by
    unfold token_burn
    exact if_neg (by omega)
  unfold burn_and_prepare_transfer
  rw [hcs, hb]
  exact ⟨rfl, rfl, rfl⟩

/-- Witness for C9: happy-path state, approve CPI failing. -/
theorem C9_emit_sequenced_before_approve_witness :
    (burn_and_prepare_transfer st1000 zero32 false 500 2 none ones32 none 0).1 =
      .error .tokenApproveFailed ∧
    (burn_and_prepare_transfer st1000 zero32 false 500 2 none ones32 none 0).2.events =
      st1000.events ++ [{ amount := 500, recipient_chain := 2,
                          gateway := Option.getD none zero32, recipient := ones32,
                          arbiter_fee := Option.getD none 0, nonce := 0 }] ∧
    (burn_and_prepare_transfer st1000 zero32 false 500 2 none ones32 none 0).2.wrapped_tbtc_token =
      st1000.wrapped_tbtc_token :=
  C9_emit_sequenced_before_approve st1000 zero32 500 2 none ones32 none 0
    (by decide) (by decide)

/-- C2: at the transaction level, a failed `burn_and_prepare_transfer` has no
observable mutation: `minted_amount`, the sender's token balance and the
custody account's delegation all equal their pre-call values. -/
theorem C2_failure_is_atomic (st : SendState) (auth : Bytes32) (approveOk : Bool)
    (amt rc : Nat) (gw : Option Bytes32) (r : Bytes32) (fee : Option Nat) (n : Nat)
    (e : SendError)
    (h : (send_tbtc_observable st auth approveOk amt rc gw r fee n).1 = .error e) :
    (send_tbtc_observable st auth approveOk amt rc gw r fee n).2.custodian.mintedAmount =
      st.custodian.mintedAmount ∧
    (send_tbtc_observable st auth approveOk amt rc gw r fee n).2.sender_token.amount =
      st.sender_token.amount ∧
    (send_tbtc_observable st auth approveOk amt rc gw r fee n).2.wrapped_tbtc_token.delegate =
      st.wrapped_tbtc_token.delegate ∧
    (send_tbtc_observable st auth approveOk amt rc gw r fee n).2.wrapped_tbtc_token.delegatedAmount =
      st.wrapped_tbtc_token.delegatedAmount := by
  rcases hb : burn_and_prepare_transfer st auth approveOk amt rc gw r fee n with ⟨res, st1⟩
  cases res with
  | ok u =>
    exfalso
    unfold send_tbtc_observable at h
    rw [hb] at h
    have h2 : (Except.ok u : Except SendError Unit) = .error e := h
    exact Except.noConfusion h2
  | error e1 =>
    unfold send_tbtc_observable
    rw [hb]
    exact ⟨rfl, rfl, rfl, rfl⟩

/-- Witness for C2: a concrete failing call (underflow) observably changes
nothing. -/
theorem C2_failure_is_atomic_witness :
    (send_tbtc_observable st100 zero32 true 101 2 none ones32 none 0).2.custodian.mintedAmount =
      st100.custodian.mintedAmount ∧
    (send_tbtc_observable st100 zero32 true 101 2 none ones32 none 0).2.sender_token.amount =
      st100.sender_token.amount ∧
    (send_tbtc_observable st100 zero32 true 101 2 none ones32 none 0).2.wrapped_tbtc_token.delegate =
      st100.wrapped_tbtc_token.delegate ∧
    (send_tbtc_observable st100 zero32 true 101 2 none ones32 none 0).2.wrapped_tbtc_token.delegatedAmount =
      st100.wrapped_tbtc_token.delegatedAmount :=
  C2_failure_is_atomic st100 zero32 true 101 2 none ones32 none 0
    (.gatewayErr .MintedAmountUnderflow) rfl

/-- C1: evaluation at the spec's happy path (`minted_amount = 1000`, balances
500, send of 500). The call succeeds, but `minted_amount` is still `1000`
afterwards, not `500`: the source computes the `checked_sub` difference only
to test for underflow and never assigns it back, so the ledger is never
debited on success — contradicting the spec and the code's own "Account for
burning tBTC" comment. -/
theorem C1_minted_amount_not_debited_on_success :
    (burn_and_prepare_transfer st1000 zero32 true 500 2 none ones32 none 0).1 = .ok () ∧
    (burn_and_prepare_transfer st1000 zero32 true 500 2 none ones32 none 0).2.custodian.mintedAmount
      = 1000 ∧
    (burn_and_prepare_transfer st1000 zero32 true 500 2 none ones32 none 0).2.custodian.mintedAmount
      ≠ st1000.custodian.mintedAmount - 500 := by
  refine ⟨rfl, rfl, ?_⟩
  decide

end TbtcGateway
